import Mathlib

/-!
Verification of the Tello UDP command client (`tello.py`).

The embedding models the command path of `Tello.send_command` as a function
of an explicit session state and a schedule of events observed at the poll
granularity of its waiting loop (the code polls every 10 ms, checking the
response slot first and the abort flag second).  Reply payloads are modelled
as the UTF-8 text they carry, since the wire protocol exchanges UTF-8 text
and the code decodes every payload with `.decode('utf-8')`; the receive
thread is modelled separately at the byte level to capture the 256-byte
read bound of `socket.recvfrom(256)`.
-/

namespace Tello

/-- The mutable session fields of class `Tello` that the command path
touches: `self.abort_flag`, `self.response`, and (for observability of
`socket.sendto`) the list of transmitted command datagrams. -/
structure TelloState where
  abort_flag : Bool
  response : Option String
  sent : List String
deriving DecidableEq

/-- An event observed by the waiting loop between two of its polls:
a datagram arrival (the receive thread assigns `self.response`), the
deadline timer firing (`set_abort_flag` sets `self.abort_flag`), or
nothing (a plain 10 ms sleep). -/
inductive Event where
  | recv (payload : String)
  | timerFire
  | tick
deriving DecidableEq

/-- The exceptions the command path can raise.  `tello.py` only ever
raises `RuntimeError(msg)`. -/
inductive TelloError where
  | runtimeError (msg : String)
deriving DecidableEq

/-- Effect of one event on the session state: the receive thread
overwrites `self.response`; `set_abort_flag` (line 270) sets
`self.abort_flag = True`; a tick changes nothing. -/
def applyEvent (st : TelloState) : Event → TelloState
  | .recv p => { st with response := some p }
  | .timerFire => { st with abort_flag := true }
  | .tick => st

/-- One poll of the waiting loop of `send_command` (lines 252-259):
if `self.response` is not `None`, decode it, clear it and return it
(lines 257-261); otherwise if `self.abort_flag` is set, raise
`RuntimeError('No response to command')` (lines 253-254); otherwise keep
waiting (`none`). -/
def pollCheck (st : TelloState) : Option (Except TelloError String × TelloState) :=
  match st.response with
  | some r => some (.ok r, { st with response := none })
  | none =>
    if st.abort_flag then
      some (.error (.runtimeError "No response to command"), st)
    else
      none

/-- The waiting loop `while self.response is None: ...` of `send_command`,
driven by the schedule of events; returns `none` when the schedule is
exhausted with the loop still spinning. -/
def waitLoop : List Event → TelloState → Option (Except TelloError String × TelloState)
  | [], st => pollCheck st
  | e :: rest, st =>
    match pollCheck st with
    | some out => some out
    | none => waitLoop rest (applyEvent st e)

/-- `Tello.send_command` (lines 244-261): clear `self.abort_flag`
(line 245), transmit the encoded command with `socket.sendto` (line 248),
then wait for a response or the timeout.  Note that `self.response` is
NOT cleared before the wait: the code reaches the loop with whatever the
slot already held. -/
def send_command (command : String) (st : TelloState) (events : List Event) :
    Option (Except TelloError String × TelloState) :=
  waitLoop events { st with abort_flag := false, sent := st.sent ++ [command] }

/-- `Tello.flip` (line 92): `send_command('flip %s' % direction)`. -/
def flip (direction : String) (st : TelloState) (events : List Event) :
    Option (Except TelloError String × TelloState) :=
  send_command ("flip " ++ direction) st events

/-- `Tello.move` (line 142): `send_command('%s %s' % (direction, distance))`. -/
def move (direction : String) (distance : Int) (st : TelloState) (events : List Event) :
    Option (Except TelloError String × TelloState) :=
  send_command (direction ++ " " ++ toString distance) st events

/-- `Tello.rotate_cw` (line 301): `send_command('cw %s' % degrees)`. -/
def rotate_cw (degrees : Int) (st : TelloState) (events : List Event) :
    Option (Except TelloError String × TelloState) :=
  send_command ("cw " ++ toString degrees) st events

/-- `Tello.rotate_ccw` (line 312): `send_command('ccw %s' % degrees)`. -/
def rotate_ccw (degrees : Int) (st : TelloState) (events : List Event) :
    Option (Except TelloError String × TelloState) :=
  send_command ("ccw " ++ toString degrees) st events

/-- `Tello.get_battery` (line 102): returns `send_command('battery?')`
unchanged; no `int(...)` conversion is applied. -/
def get_battery (st : TelloState) (events : List Event) :
    Option (Except TelloError String × TelloState) :=
  send_command "battery?" st events

/-- The fresh session state built by `Tello.__init__` before the
handshake: `self.abort_flag = False` (line 47), `self.response = None`
(line 49), nothing sent yet. -/
def initState : TelloState :=
  { abort_flag := false, response := none, sent := [] }

/-- The handshake of `Tello.__init__` (lines 60-61): issue
`send_command('command')`; any raised error propagates; a reply different
from `'OK'` raises `RuntimeError('Tello rejected attempt to enter command
mode')`; a reply equal to `'OK'` leaves the session ready. -/
def tello_init (events : List Event) : Option (Except TelloError TelloState) :=
  match send_command "command" initState events with
  | none => none
  | some (.error e, _) => some (.error e)
  | some (.ok r, st') =>
    if r = "OK" then
      some (.ok st')
    else
      some (.error (.runtimeError "Tello rejected attempt to enter command mode"))

/-- Byte-level state of the receive thread: the response slot it writes
and the log of payloads it passed to `log.info`. -/
structure ReceiverState where
  response : Option (List Nat)
  log : List (List Nat)
deriving DecidableEq

/-- Outcome of one `socket.recvfrom` call inside `_receive_thread`: a
datagram, or an exception (e.g. the socket was closed). -/
inductive ReadResult where
  | datagram (payload : List Nat)
  | readError
deriving DecidableEq

/-- The buffer size passed to `socket.recvfrom` at line 76. -/
def recv_bufsize : Nat := 256

/-- `Tello._receive_thread` (lines 74-79): loop forever; each successful
`recvfrom(256)` yields at most 256 bytes of the datagram, which are stored
into `self.response` (overwriting it) and logged; any exception breaks the
loop, returning normally. -/
def receive_thread : List ReadResult → ReceiverState → ReceiverState
  | [], st => st
  | .datagram p :: rest, st =>
    receive_thread rest
      { response := some (p.take recv_bufsize),
        log := st.log ++ [p.take recv_bufsize] }
  | .readError :: _, st => st

/-- Bool test: does `haystack` contain `needle` as a substring? -/
def strContains (haystack needle : String) : Bool :=
  (List.range (haystack.data.length + 1)).any
    (fun i => needle.data.isPrefixOf (haystack.data.drop i))

/-- A state whose response slot already holds a payload is consumed by
the very first poll of the waiting loop: the stale payload is returned
and the slot is cleared, whatever the schedule. -/
theorem waitLoop_stale (events : List Event) (st : TelloState) (p : String)
    (h : st.response = some p) :
    waitLoop events st = some (.ok p, { st with response := none }) := by
  cases events with
  | nil => simp [waitLoop, pollCheck, h]
  | cons e rest => simp [waitLoop, pollCheck, h]

/-- One poll never touches the sent log. -/
theorem pollCheck_sent (st : TelloState) (res : Except TelloError String)
    (st' : TelloState) (h : pollCheck st = some (res, st')) :
    st'.sent = st.sent := by
  unfold pollCheck at h
  cases hr : st.response with
  | some r =>
    rw [hr] at h
    simp at h
    rw [← h.2]
  | none =>
    rw [hr] at h
    cases hb : st.abort_flag with
    | true =>
      rw [hb] at h
      simp at h
      rw [← h.2]
    | false =>
      rw [hb] at h
      simp at h

/-- The waiting loop never touches the sent log: whatever state it
returns has the sent log it started with. -/
theorem waitLoop_sent (events : List Event) (st : TelloState)
    (res : Except TelloError String) (st' : TelloState)
    (h : waitLoop events st = some (res, st')) : st'.sent = st.sent := by
  induction events generalizing st with
  | nil =>
    simp only [waitLoop] at h
    exact pollCheck_sent st res st' h
  | cons e rest ih =>
    simp only [waitLoop] at h
    cases hp : pollCheck st with
    | some out =>
      rw [hp] at h
      simp only [Option.some.injEq] at h
      rw [h] at hp
      exact pollCheck_sent st res st' hp
    | none =>
      rw [hp] at h
      have hsent := ih (applyEvent st e) h
      rw [hsent]
      cases e <;> rfl

/-- If the slot is empty, no datagram ever arrives in the schedule, and
the abort flag either is already set or the timer fires in the schedule,
the waiting loop raises `RuntimeError('No response to command')` with the
slot still empty. -/
theorem waitLoop_timeout (events : List Event) (st : TelloState)
    (h : st.response = none) (hno : ∀ p, Event.recv p ∉ events)
    (hfire : st.abort_flag = true ∨ Event.timerFire ∈ events) :
    waitLoop events st
      = some (.error (.runtimeError "No response to command"),
              { st with abort_flag := true }) := by
  induction events generalizing st with
  | nil =>
    have hb : st.abort_flag = true := by
      cases hfire with
      | inl hb => exact hb
      | inr hm => simp at hm
    obtain ⟨a, r, s⟩ := st
    simp only at hb h
    subst hb
    subst h
    rfl
  | cons e rest ih =>
    cases hb : st.abort_flag with
    | true =>
      obtain ⟨a, r, s⟩ := st
      simp only at hb h
      subst hb
      subst h
      rfl
    | false =>
      have hstep : pollCheck st = none := by simp [pollCheck, h, hb]
      simp only [waitLoop, hstep]
      cases e with
      | recv p => exact absurd (List.mem_cons_self _ _) (hno p)
      | timerFire =>
        have hrec := ih { st with abort_flag := true } h
          (fun p hp => hno p (List.mem_cons_of_mem _ hp)) (Or.inl rfl)
        simpa [applyEvent] using hrec
      | tick =>
        have hm : Event.timerFire ∈ rest := by
          rcases hfire with hb2 | hm2
          · rw [hb] at hb2; cases hb2
          · simpa using hm2
        have hrec := ih st h (fun p hp => hno p (List.mem_cons_of_mem _ hp))
          (Or.inr hm)
        simpa [applyEvent] using hrec

/-- If the slot is empty and the abort flag clear, a schedule made of
ticks followed by a datagram arrival makes the waiting loop return that
datagram's text, with the slot cleared. -/
theorem waitLoop_fresh (pre post : List Event) (st : TelloState) (p : String)
    (h : st.response = none) (hb : st.abort_flag = false)
    (hpre : ∀ e ∈ pre, e = Event.tick) :
    waitLoop (pre ++ Event.recv p :: post) st
      = some (.ok p, { st with response := none }) := by
  induction pre generalizing st with
  | nil =>
    have hstep : pollCheck st = none := by simp [pollCheck, h, hb]
    simp only [List.nil_append, waitLoop, hstep]
    rw [waitLoop_stale post _ p (by simp [applyEvent])]
    simp [applyEvent]
  | cons e rest ih =>
    have he : e = Event.tick := hpre e (List.mem_cons_self _ _)
    have hstep : pollCheck st = none := by simp [pollCheck, h, hb]
    subst he
    simp only [List.cons_append, waitLoop, hstep]
    exact ih st h hb (fun e' he' => hpre e' (List.mem_cons_of_mem _ he'))

/-- `send_command` appends exactly its command to the sent log: whenever
the call returns, the final state's log is the initial one extended by
that one datagram. -/
theorem send_command_transmits (command : String) (st : TelloState)
    (events : List Event) (res : Except TelloError String) (st' : TelloState)
    (h : send_command command st events = some (res, st')) :
    st'.sent = st.sent ++ [command] := by
  unfold send_command at h
  have hs := waitLoop_sent events _ res st' h
  simpa using hs

/-- C1 counterexample: with the payload `"stale"` already sitting in the
response slot when `send_command('battery?')` is called, the call
transmits the datagram and returns that very stale payload: the code
never clears the slot before sending. -/
theorem send_command_stale_cex :
    send_command "battery?"
        { abort_flag := false, response := some "stale", sent := [] } []
      = some (.ok "stale",
          { abort_flag := false, response := none, sent := ["battery?"] }) := rfl

/-- C1 (amended): `send_command` clears the abort flag but not the
response slot before transmitting; a payload already in the slot when the
call starts is returned as this command's result, the slot being cleared
only at that consumption. -/
theorem send_command_keeps_stale (command : String) (st : TelloState)
    (events : List Event) (p : String) (h : st.response = some p) :
    send_command command st events
      = some (.ok p,
          { abort_flag := false, response := none,
            sent := st.sent ++ [command] }) := by
  unfold send_command
  rw [waitLoop_stale events
    { st with abort_flag := false, sent := st.sent ++ [command] } p h]

/-- Witness for the amended C1 at a concrete stale payload. -/
theorem send_command_keeps_stale_witness :
    send_command "battery?"
        { abort_flag := false, response := some "stale87", sent := [] }
        [Event.recv "87"]
      = some (.ok "stale87",
          { abort_flag := false, response := none, sent := ["battery?"] }) :=
  send_command_keeps_stale "battery?"
    { abort_flag := false, response := some "stale87", sent := [] }
    [Event.recv "87"] "stale87" rfl

/-- C2 counterexample: a timeout on `flip f` raises
`RuntimeError('No response to command')`, a fixed message that does not
contain the command text `flip f`. -/
theorem timeout_error_no_command_cex :
    (send_command "flip f" initState [Event.timerFire]).map Prod.fst
        = some (.error (.runtimeError "No response to command"))
    ∧ strContains "No response to command" "flip f" = false := by
  exact ⟨rfl, by decide⟩

/-- C2 (amended): a command whose deadline timer fires before any reply
arrives fails with the fixed error message `No response to command`, the
same for every command, hence never referencing the command that timed
out. -/
theorem timeout_error_fixed_message (command command2 : String)
    (st : TelloState) (events : List Event) (h : st.response = none)
    (hno : ∀ p, Event.recv p ∉ events) (hfire : Event.timerFire ∈ events) :
    (send_command command st events).map Prod.fst
        = some (.error (.runtimeError "No response to command"))
    ∧ (send_command command st events).map Prod.fst
        = (send_command command2 st events).map Prod.fst := by
  constructor
  · unfold send_command
    rw [waitLoop_timeout events
      { st with abort_flag := false, sent := st.sent ++ [command] } h hno
      (Or.inr hfire)]
    rfl
  · unfold send_command
    rw [waitLoop_timeout events
      { st with abort_flag := false, sent := st.sent ++ [command] } h hno
      (Or.inr hfire),
      waitLoop_timeout events
      { st with abort_flag := false, sent := st.sent ++ [command2] } h hno
      (Or.inr hfire)]
    rfl

/-- Witness for the amended C2: `flip f` and `takeoff` time out with the
same fixed error. -/
theorem timeout_error_fixed_message_witness :
    ((send_command "flip f" initState [Event.timerFire]).map Prod.fst
        = some (.error (.runtimeError "No response to command")))
    ∧ (send_command "flip f" initState [Event.timerFire]).map Prod.fst
        = (send_command "takeoff" initState [Event.timerFire]).map Prod.fst :=
  timeout_error_fixed_message "flip f" "takeoff" initState [Event.timerFire]
    rfl (fun p hp => by simp at hp) (by simp)

/-- C3: `get_battery` returns the decoded reply text unparsed: reply
`"87"` yields the string `"87"` (the model's result type is `String`),
and the non-numeric reply `"abc"` is returned as a successful result
instead of failing with a parse error — contradicting the function's own
docstring, which promises an `int`. -/
theorem get_battery_returns_unparsed_text :
    get_battery initState [Event.recv "87"]
        = some (.ok "87",
            { abort_flag := false, response := none, sent := ["battery?"] })
    ∧ get_battery initState [Event.recv "abc"]
        = some (.ok "abc",
            { abort_flag := false, response := none, sent := ["battery?"] }) :=
  ⟨rfl, rfl⟩

/-- C4 counterexample: the code has no signed rotation dispatcher; its
clockwise operation transmits the angle verbatim, so `rotate_cw(-90)`
transmits `cw -90`, not `cw 90`. -/
theorem rotate_negative_cex :
    rotate_cw (-90) initState [Event.recv "OK"]
        = some (.ok "OK",
            { abort_flag := false, response := none, sent := ["cw -90"] })
    ∧ ("cw -90" : String) ≠ "cw 90" :=
  ⟨rfl, by decide⟩

/-- C4 (amended): `rotate_cw(d)` transmits `cw d` and `rotate_ccw(d)`
transmits `ccw d` with the degrees formatted verbatim; no absolute value
is applied, so a negative argument is transmitted negative. -/
theorem rotate_transmits_verbatim (degrees : Int) (st : TelloState)
    (events : List Event) :
    (∀ res st', rotate_cw degrees st events = some (res, st') →
        st'.sent = st.sent ++ ["cw " ++ toString degrees])
    ∧ (∀ res st', rotate_ccw degrees st events = some (res, st') →
        st'.sent = st.sent ++ ["ccw " ++ toString degrees]) := by
  constructor
  · intro res st' hrun
    exact send_command_transmits _ st events res st' hrun
  · intro res st' hrun
    exact send_command_transmits _ st events res st' hrun

/-- Witness for the amended C4 at `degrees = -450`. -/
theorem rotate_transmits_verbatim_witness :
    (["cw -450"] : List String) = [] ++ ["cw " ++ toString (-450 : Int)] :=
  (rotate_transmits_verbatim (-450) initState [Event.recv "error"]).1
    (.ok "error")
    { abort_flag := false, response := none, sent := ["cw -450"] } rfl

/-- C5: the constructor issues the literal handshake command `command`;
a reply different from the literal token `OK` makes construction fail
with `RuntimeError('Tello rejected attempt to enter command mode')`, a
handshake timeout makes it fail with the timeout error, and the reply
`OK` yields a ready session whose only transmitted datagram is
`command`. -/
theorem init_handshake (reply : String) (hr : reply ≠ "OK") :
    tello_init [Event.recv reply]
        = some (.error
            (.runtimeError "Tello rejected attempt to enter command mode"))
    ∧ tello_init [Event.timerFire]
        = some (.error (.runtimeError "No response to command"))
    ∧ tello_init [Event.recv "OK"]
        = some (.ok
            { abort_flag := false, response := none, sent := ["command"] }) := by
  refine ⟨?_, rfl, rfl⟩
  have hsend : send_command "command" initState [Event.recv reply]
      = some (.ok reply,
          { abort_flag := false, response := none, sent := ["command"] }) := by
    simp [send_command, waitLoop, pollCheck, applyEvent, initState]
  unfold tello_init
  rw [hsend]
  simp [hr]

/-- Witness for C5 at the rejected reply `FALSE`. -/
theorem init_handshake_witness :
    tello_init [Event.recv "FALSE"]
        = some (.error
            (.runtimeError "Tello rejected attempt to enter command mode")) :=
  (init_handshake "FALSE" (by decide)).1

/-- C6 counterexample: with a stale payload `"old"` in the slot, a fresh
reply `"12.0"` arriving within the window is not what `send_command`
returns — the stale payload is. -/
theorem send_command_fresh_reply_cex :
    send_command "speed?"
        { abort_flag := false, response := some "old", sent := [] }
        [Event.recv "12.0"]
      = some (.ok "old",
          { abort_flag := false, response := none, sent := ["speed?"] })
    ∧ ("old" : String) ≠ "12.0" :=
  ⟨rfl, by decide⟩

/-- C6 (amended): provided the response slot is empty when `send_command`
is called, a reply arriving before the timer fires is returned as the
command's result and the slot is left empty. -/
theorem send_command_returns_fresh_reply (command p : String)
    (st : TelloState) (pre post : List Event) (h : st.response = none)
    (hpre : ∀ e ∈ pre, e = Event.tick) :
    send_command command st (pre ++ Event.recv p :: post)
      = some (.ok p,
          { abort_flag := false, response := none,
            sent := st.sent ++ [command] }) := by
  unfold send_command
  rw [waitLoop_fresh pre post
    { st with abort_flag := false, sent := st.sent ++ [command] } p h rfl hpre]

/-- Witness for the amended C6: reply `87` to `battery?` after one idle
poll. -/
theorem send_command_returns_fresh_reply_witness :
    send_command "battery?" initState [Event.tick, Event.recv "87"]
      = some (.ok "87",
          { abort_flag := false, response := none, sent := ["battery?"] }) :=
  send_command_returns_fresh_reply "battery?" "87" initState [Event.tick] []
    rfl (by simp)

/-- C7: if the slot is empty at the call and no datagram arrives before
the timer fires, `send_command` raises the timeout error with the
response slot still empty. -/
theorem send_command_timeout_empty (command : String) (st : TelloState)
    (events : List Event) (h : st.response = none)
    (hno : ∀ p, Event.recv p ∉ events) (hfire : Event.timerFire ∈ events) :
    send_command command st events
      = some (.error (.runtimeError "No response to command"),
          { abort_flag := true, response := none,
            sent := st.sent ++ [command] }) := by
  unfold send_command
  rw [waitLoop_timeout events
    { st with abort_flag := false, sent := st.sent ++ [command] } h hno
    (Or.inr hfire)]
  rw [h]

/-- Witness for C7: `flip z` with a tick and then the timer firing. -/
theorem send_command_timeout_empty_witness :
    send_command "flip z" initState [Event.tick, Event.timerFire]
      = some (.error (.runtimeError "No response to command"),
          { abort_flag := true, response := none, sent := ["flip z"] }) :=
  send_command_timeout_empty "flip z" initState [Event.tick, Event.timerFire]
    rfl (fun p hp => by simp at hp) (by simp)

/-- C8: `send_command` clears the abort flag at its start, so its result
never depends on the abort flag a previously fired timer left behind, and
a command started with the flag set still succeeds when a reply
arrives. -/
theorem timeout_scoped_to_call (command p : String) (st : TelloState)
    (events : List Event) (h : st.response = none) :
    send_command command { st with abort_flag := true } events
        = send_command command { st with abort_flag := false } events
    ∧ send_command command { st with abort_flag := true } [Event.recv p]
        = some (.ok p,
            { abort_flag := false, response := none,
              sent := st.sent ++ [command] }) := by
  refine ⟨rfl, ?_⟩
  simp [send_command, waitLoop, pollCheck, applyEvent, h]

/-- Witness for C8: with the abort flag still set from an earlier
timeout, `land` succeeds on the next reply. -/
theorem timeout_scoped_to_call_witness :
    send_command "land" { abort_flag := true, response := none, sent := [] }
        [Event.recv "OK"]
      = some (.ok "OK",
          { abort_flag := false, response := none, sent := ["land"] }) :=
  (timeout_scoped_to_call "land" "OK" initState [] rfl).2

/-- The last datagram of an error-free run determines the response slot:
each arrival overwrites the previous value. -/
theorem receive_thread_last (ps : List (List Nat)) (st : ReceiverState)
    (q : List Nat) (hq : ps.getLast? = some q) :
    (receive_thread (ps.map ReadResult.datagram) st).response
      = some (q.take recv_bufsize) := by
  induction ps generalizing st with
  | nil => simp at hq
  | cons p ps ih =>
    cases ps with
    | nil =>
      simp at hq
      subst hq
      rfl
    | cons p2 ps2 =>
      have hq2 : (p2 :: ps2).getLast? = some q := by
        rwa [List.getLast?_cons_cons] at hq
      exact ih _ hq2

/-- Every datagram of an error-free run is logged, in order, truncated to
the read buffer size. -/
theorem receive_thread_log (ps : List (List Nat)) (st : ReceiverState) :
    (receive_thread (ps.map ReadResult.datagram) st).log
      = st.log ++ ps.map (fun p => p.take recv_bufsize) := by
  induction ps generalizing st with
  | nil => simp [receive_thread]
  | cons p ps ih =>
    simp only [List.map_cons, receive_thread]
    rw [ih]
    simp

/-- A read error ends the loop: everything scheduled after it is
ignored, and no error value is produced. -/
theorem receive_thread_stops_on_error (ps : List (List Nat))
    (st : ReceiverState) (rest : List ReadResult) :
    receive_thread (ps.map ReadResult.datagram ++ ReadResult.readError :: rest) st
      = receive_thread (ps.map ReadResult.datagram) st := by
  induction ps generalizing st with
  | nil => rfl
  | cons p ps ih =>
    simp only [List.map_cons, List.cons_append, receive_thread]
    exact ih _

/-- The response slot only ever holds payloads of at most the read
buffer size. -/
theorem receive_thread_cap (reads : List ReadResult) (st : ReceiverState)
    (hcap : ∀ r0, st.response = some r0 → r0.length ≤ recv_bufsize) :
    ∀ r0, (receive_thread reads st).response = some r0 →
      r0.length ≤ recv_bufsize := by
  induction reads generalizing st with
  | nil => exact hcap
  | cons e rest ih =>
    cases e with
    | datagram p =>
      refine ih _ (fun r0 hr0 => ?_)
      simp only [Option.some.injEq] at hr0
      subst hr0
      simp [List.length_take]
    | readError => exact hcap

/-- C9: the receive loop reads at most 256 bytes per iteration (any
stored payload has length at most `recv_bufsize`), stores each arriving
payload into the response slot overwriting the previous one (the slot
ends up holding the last datagram), logs every received payload, and on
a read error returns silently, ignoring the remainder of its input. -/
theorem receive_loop_behavior (st : ReceiverState) (ps : List (List Nat))
    (q : List Nat) (rest reads : List ReadResult)
    (hcap : ∀ r0, st.response = some r0 → r0.length ≤ recv_bufsize) :
    (ps.getLast? = some q →
      (receive_thread (ps.map ReadResult.datagram) st).response
        = some (q.take recv_bufsize))
    ∧ (receive_thread (ps.map ReadResult.datagram) st).log
        = st.log ++ ps.map (fun p => p.take recv_bufsize)
    ∧ receive_thread (ps.map ReadResult.datagram ++ ReadResult.readError :: rest) st
        = receive_thread (ps.map ReadResult.datagram) st
    ∧ (∀ r0, (receive_thread reads st).response = some r0 →
        r0.length ≤ recv_bufsize) :=
  ⟨fun hq => receive_thread_last ps st q hq,
   receive_thread_log ps st,
   receive_thread_stops_on_error ps st rest,
   receive_thread_cap reads st hcap⟩

/-- Witness for C9: two datagrams, the second overwriting the first. -/
theorem receive_loop_behavior_witness :
    (receive_thread [ReadResult.datagram [1, 2], ReadResult.datagram [3]]
        { response := none, log := [] }).response = some [3] :=
  (receive_loop_behavior { response := none, log := [] } [[1, 2], [3]] [3]
      [] [] (fun r0 hr0 => nomatch hr0)).1 (by decide)

/-- C10: the named operations validate nothing: whenever a call returns,
`flip d` has transmitted exactly `flip d` for any string `d`, `move`
has transmitted its space-joined arguments unchecked, and
`rotate_cw`/`rotate_ccw` have transmitted the given degrees verbatim. -/
theorem ops_transmit_unvalidated (d direction : String)
    (distance degrees : Int) (st : TelloState) (events : List Event) :
    (∀ res st', flip d st events = some (res, st') →
        st'.sent = st.sent ++ ["flip " ++ d])
    ∧ (∀ res st', move direction distance st events = some (res, st') →
        st'.sent = st.sent ++ [direction ++ " " ++ toString distance])
    ∧ (∀ res st', rotate_cw degrees st events = some (res, st') →
        st'.sent = st.sent ++ ["cw " ++ toString degrees])
    ∧ (∀ res st', rotate_ccw degrees st events = some (res, st') →
        st'.sent = st.sent ++ ["ccw " ++ toString degrees]) :=
  ⟨fun res st' hrun => send_command_transmits _ st events res st' hrun,
   fun res st' hrun => send_command_transmits _ st events res st' hrun,
   fun res st' hrun => send_command_transmits _ st events res st' hrun,
   fun res st' hrun => send_command_transmits _ st events res st' hrun⟩

/-- Witness for C10 at arguments outside every documented range: flip
direction `zz`, move direction `sideways` with negative distance, and
999 degrees. -/
theorem ops_transmit_unvalidated_witness :
    ((["flip zz"] : List String) = [] ++ ["flip " ++ "zz"])
    ∧ ((["sideways -5"] : List String)
        = [] ++ ["sideways" ++ " " ++ toString (-5 : Int)])
    ∧ ((["cw 999"] : List String) = [] ++ ["cw " ++ toString (999 : Int)]) :=
  ⟨(ops_transmit_unvalidated "zz" "sideways" (-5) 999 initState
      [Event.recv "error"]).1 (.ok "error")
      { abort_flag := false, response := none, sent := ["flip zz"] } rfl,
   (ops_transmit_unvalidated "zz" "sideways" (-5) 999 initState
      [Event.recv "error"]).2.1 (.ok "error")
      { abort_flag := false, response := none, sent := ["sideways -5"] } rfl,
   (ops_transmit_unvalidated "zz" "sideways" (-5) 999 initState
      [Event.recv "error"]).2.2.1 (.ok "error")
      { abort_flag := false, response := none, sent := ["cw 999"] } rfl⟩

end Tello
